import Mathlib

/-!
Verification development for the AWSDataScanner scanner-worker core.

Text is embedded as `List Char` (Python `str` is a sequence of code points);
byte content is `List Nat` (each entry < 256).  The regex patterns of
`src/scanner-worker/src/detectors.py` are embedded as a small backtracking
matcher with Python `re` semantics (leftmost match, left-biased alternation,
greedy quantifiers, `\b` word boundaries); character classes cover the
Latin-1 range, which is the range reachable by the scanner's UTF-8 and
Latin-1 decoding paths for the inputs considered here.
-/

set_option maxRecDepth 8000

/-- Python `\d` digit class (ASCII range; the detector inputs are Latin-1). -/
def pyDigit (c : Char) : Bool := '0' ≤ c && c ≤ '9'

/-- Python `\s` whitespace class restricted to the Latin-1 range:
space, TAB..CR (0x09-0x0D), FS..US (0x1C-0x1F), NEL (0x85), NBSP (0xA0). -/
def pySpace (c : Char) : Bool :=
  c = ' ' || (9 ≤ c.toNat && c.toNat ≤ 13) || (28 ≤ c.toNat && c.toNat ≤ 31) ||
  c.toNat = 133 || c.toNat = 160

/-- Python `\w` word class restricted to the Latin-1 range: ASCII alphanumerics,
underscore, and the Latin-1 letters (0xAA, 0xB5, 0xBA, 0xC0-0xD6, 0xD8-0xF6,
0xF8-0xFF). Code points above 0xFF do not occur in the scanner's decoded text
for the inputs considered here. -/
def pyWord (c : Char) : Bool :=
  ('0' ≤ c && c ≤ '9') || ('A' ≤ c && c ≤ 'Z') || ('a' ≤ c && c ≤ 'z') || c = '_' ||
  c.toNat = 170 || c.toNat = 181 || c.toNat = 186 ||
  (192 ≤ c.toNat && c.toNat ≤ 214) || (216 ≤ c.toNat && c.toNat ≤ 246) ||
  (248 ≤ c.toNat && c.toNat ≤ 255)

/-- Regex abstract syntax: enough for the six patterns of `detectors.py`.
`rep p min` is a greedy unbounded repetition of a one-character class. -/
inductive RE where
  | eps : RE
  | cls (p : Char → Bool) : RE
  | seq (a b : RE) : RE
  | alt (a b : RE) : RE
  | opt (a : RE) : RE
  | rep (p : Char → Bool) (min : Nat) : RE
  | wb : RE

/-- Character at index `i` of a line, if in range. -/
def charAt (s : List Char) (i : Nat) : Option Char := (s.drop i).head?

/-- Is the character at index `i` (if any) a word character? -/
def wordAt (s : List Char) (i : Nat) : Bool :=
  match charAt s i with
  | some c => pyWord c
  | none => false

/-- Word boundary test at position `pos` (Python `\b`). -/
def boundaryAt (s : List Char) (pos : Nat) : Bool :=
  let prev := if pos = 0 then false else wordAt s (pos - 1)
  prev != wordAt s pos

/-- Length of the maximal run of characters satisfying `p`. -/
def runLenAux (p : Char → Bool) : List Char → Nat
  | [] => 0
  | c :: cs => if p c then runLenAux p cs + 1 else 0

/-- Length of the maximal run of characters satisfying `p` starting at `pos`. -/
def runLen (p : Char → Bool) (s : List Char) (pos : Nat) : Nat :=
  runLenAux p (s.drop pos)

/-- Greedy backtracking over repetition counts: try `cnt` characters first,
then shorter, stopping at the minimum count. -/
def tryCounts (k : Nat → Option Nat) (pos min : Nat) : Nat → Option Nat
  | 0 => if min = 0 then k pos else none
  | cnt + 1 =>
    if cnt + 1 < min then none
    else
      match k (pos + cnt + 1) with
      | some r => some r
      | none => tryCounts k pos min cnt

/-- Backtracking matcher with continuation `k`; returns the first success in
Python `re` backtracking order (greedy quantifiers, left-biased alternation). -/
def reMatch : RE → List Char → Nat → (Nat → Option Nat) → Option Nat
  | .eps, _, pos, k => k pos
  | .cls p, s, pos, k =>
    match charAt s pos with
    | some c => if p c then k (pos + 1) else none
    | none => none
  | .seq a b, s, pos, k => reMatch a s pos (fun q => reMatch b s q k)
  | .alt a b, s, pos, k =>
    match reMatch a s pos k with
    | some r => some r
    | none => reMatch b s pos k
  | .opt a, s, pos, k =>
    match reMatch a s pos k with
    | some r => some r
    | none => k pos
  | .rep p min, s, pos, k => tryCounts k pos min (runLen p s pos)
  | .wb, s, pos, k => if boundaryAt s pos then k pos else none

/-- Non-overlapping left-to-right match enumeration (Python `finditer`),
with fuel bounding the scan positions. Returns (start, end) pairs. -/
def finditerAux (r : RE) (s : List Char) : Nat → Nat → List (Nat × Nat)
  | _, 0 => []
  | pos, fuel + 1 =>
    if pos > s.length then []
    else
      match reMatch r s pos some with
      | some e => (pos, e) :: finditerAux r s (max (pos + 1) e) fuel
      | none => finditerAux r s (pos + 1) fuel

/-- All non-overlapping matches of `r` in `s`, leftmost first. -/
def finditer (r : RE) (s : List Char) : List (Nat × Nat) :=
  finditerAux r s 0 (s.length + 1)

/-- Sequence a list of regexes. -/
def seqL (rs : List RE) : RE := rs.foldr RE.seq RE.eps

/-- One literal character. -/
def chC (c : Char) : RE := RE.cls (fun x => x = c)

/-- `[-\s]` separator class of the ssn / credit_card patterns. -/
def sepDash (c : Char) : Bool := c = '-' || pySpace c

/-- `[-.\s]` separator class of the phone_us pattern. -/
def sepPhone (c : Char) : Bool := c = '-' || c = '.' || pySpace c

/-- `\b\d{3}[-\s]?\d{2}[-\s]?\d{4}\b` (the `ssn` pattern). -/
def ssnPat : RE :=
  seqL ([RE.wb] ++ List.replicate 3 (RE.cls pyDigit) ++ [RE.opt (RE.cls sepDash)] ++
        List.replicate 2 (RE.cls pyDigit) ++ [RE.opt (RE.cls sepDash)] ++
        List.replicate 4 (RE.cls pyDigit) ++ [RE.wb])

/-- One `\d{4}[-\s]?` group of the credit_card pattern. -/
def ccGroup : RE :=
  seqL (List.replicate 4 (RE.cls pyDigit) ++ [RE.opt (RE.cls sepDash)])

/-- `\b(?:\d{4}[-\s]?){3}\d{4}\b|\b\d{15,16}\b` (the `credit_card` pattern). -/
def ccPat : RE :=
  RE.alt
    (seqL ([RE.wb, ccGroup, ccGroup, ccGroup] ++ List.replicate 4 (RE.cls pyDigit) ++ [RE.wb]))
    (seqL ([RE.wb] ++ List.replicate 15 (RE.cls pyDigit) ++ [RE.opt (RE.cls pyDigit), RE.wb]))

/-- `\b(AKIA[0-9A-Z]{16})\b` (the `aws_access_key` pattern). -/
def awsAccessPat : RE :=
  seqL ([RE.wb, chC 'A', chC 'K', chC 'I', chC 'A'] ++
        List.replicate 16 (RE.cls (fun c => pyDigit c || ('A' ≤ c && c ≤ 'Z'))) ++ [RE.wb])

/-- `[A-Za-z0-9/+=]` class of the aws_secret_key pattern. -/
def b64Cls (c : Char) : Bool :=
  ('A' ≤ c && c ≤ 'Z') || ('a' ≤ c && c ≤ 'z') || pyDigit c || c = '/' || c = '+' || c = '='

/-- `\b([A-Za-z0-9/+=]{40})\b` (the `aws_secret_key` pattern). -/
def awsSecretPat : RE :=
  seqL ([RE.wb] ++ List.replicate 40 (RE.cls b64Cls) ++ [RE.wb])

/-- `[A-Za-z0-9._%+-]` local-part class of the email pattern. -/
def emailLocalCls (c : Char) : Bool :=
  ('A' ≤ c && c ≤ 'Z') || ('a' ≤ c && c ≤ 'z') || pyDigit c ||
  c = '.' || c = '_' || c = '%' || c = '+' || c = '-'

/-- `[A-Za-z0-9.-]` domain class of the email pattern. -/
def emailDomCls (c : Char) : Bool :=
  ('A' ≤ c && c ≤ 'Z') || ('a' ≤ c && c ≤ 'z') || pyDigit c || c = '.' || c = '-'

/-- `[A-Z|a-z]` TLD class of the email pattern (the literal `|` is part of
the class in the source). -/
def emailTldCls (c : Char) : Bool :=
  ('A' ≤ c && c ≤ 'Z') || ('a' ≤ c && c ≤ 'z') || c = '|'

/-- `\b[A-Za-z0-9._%+-]+@[A-Za-z0-9.-]+\.[A-Z|a-z]{2,}\b` (the `email` pattern). -/
def emailPat : RE :=
  seqL [RE.wb, RE.rep emailLocalCls 1, chC '@', RE.rep emailDomCls 1,
        chC '.', RE.rep emailTldCls 2, RE.wb]

/-- `\b(?:\+?1[-.\s]?)?\(?\d{3}\)?[-.\s]?\d{3}[-.\s]?\d{4}\b` (the `phone_us` pattern). -/
def phonePat : RE :=
  seqL ([RE.wb,
         RE.opt (seqL [RE.opt (chC '+'), chC '1', RE.opt (RE.cls sepPhone)]),
         RE.opt (chC '(')] ++
        List.replicate 3 (RE.cls pyDigit) ++
        [RE.opt (chC ')'), RE.opt (RE.cls sepPhone)] ++
        List.replicate 3 (RE.cls pyDigit) ++
        [RE.opt (RE.cls sepPhone)] ++
        List.replicate 4 (RE.cls pyDigit) ++ [RE.wb])

/-- The matched slice `s[a:b]`. -/
def sliceL (s : List Char) (a b : Nat) : List Char := (s.drop a).take (b - a)

/-! ## SHA-256 (`hashlib.sha256(...).hexdigest()` in `detectors.py`) -/

/-- Truncate to a 32-bit word. -/
def w32 (n : Nat) : Nat := n % 4294967296

/-- 32-bit rotate right. -/
def rotr32 (n x : Nat) : Nat := w32 ((x >>> n) ||| (x <<< (32 - n)))

/-- SHA-256 round constants. -/
def shaK : List Nat :=
  [1116352408, 1899447441, 3049323471, 3921009573, 961987163, 1508970993,
   2453635748, 2870763221, 3624381080, 310598401, 607225278, 1426881987,
   1925078388, 2162078206, 2614888103, 3248222580, 3835390401, 4022224774,
   264347078, 604807628, 770255983, 1249150122, 1555081692, 1996064986,
   2554220882, 2821834349, 2952996808, 3210313671, 3336571891, 3584528711,
   113926993, 338241895, 666307205, 773529912, 1294757372, 1396182291,
   1695183700, 1986661051, 2177026350, 2456956037, 2730485921, 2820302411,
   3259730800, 3345764771, 3516065817, 3600352804, 4094571909, 275423344,
   430227734, 506948616, 659060556, 883997877, 958139571, 1322822218,
   1537002063, 1747873779, 1955562222, 2024104815, 2227730452, 2361852424,
   2428436474, 2756734187, 3204031479, 3329325298]

/-- SHA-256 initial hash values. -/
def shaH0 : List Nat :=
  [1779033703, 3144134277, 1013904242, 2773480762,
   1359893119, 2600822924, 528734635, 1541459225]

/-- `n` bytes of `v`, big-endian. -/
def bytesBE : Nat → Nat → List Nat
  | 0, _ => []
  | n + 1, v => (v >>> (8 * n)) % 256 :: bytesBE n v

/-- Split a list into pieces of `n` elements (fuel-bounded helper). -/
def chunksAux (n : Nat) : List α → Nat → List (List α)
  | [], _ => []
  | _ :: _, 0 => []
  | l, fuel + 1 => l.take n :: chunksAux n (l.drop n) fuel

/-- Split a list into consecutive pieces of `n` elements (last may be shorter). -/
def chunksOf (n : Nat) (l : List α) : List (List α) :=
  if n = 0 then [] else chunksAux n l l.length

/-- SHA-256 padding: append 0x80, zeros, and the 64-bit big-endian bit length. -/
def sha256Pad (msg : List Nat) : List Nat :=
  let len := msg.length
  msg ++ [0x80] ++ List.replicate ((119 - len % 64) % 64) 0 ++ bytesBE 8 (len * 8)

/-- Word `i` of a schedule/state list (0 if out of range). -/
def getW (l : List Nat) (i : Nat) : Nat := l.getD i 0

/-- SHA-256 sigma-0 (message schedule). -/
def smallSig0 (x : Nat) : Nat := (rotr32 7 x) ^^^ (rotr32 18 x) ^^^ (x >>> 3)

/-- SHA-256 sigma-1 (message schedule). -/
def smallSig1 (x : Nat) : Nat := (rotr32 17 x) ^^^ (rotr32 19 x) ^^^ (x >>> 10)

/-- SHA-256 Sigma-0 (compression). -/
def bigSig0 (x : Nat) : Nat := (rotr32 2 x) ^^^ (rotr32 13 x) ^^^ (rotr32 22 x)

/-- SHA-256 Sigma-1 (compression). -/
def bigSig1 (x : Nat) : Nat := (rotr32 6 x) ^^^ (rotr32 11 x) ^^^ (rotr32 25 x)

/-- SHA-256 choice function. -/
def shaCh (x y z : Nat) : Nat := (x &&& y) ^^^ ((x ^^^ 0xffffffff) &&& z)

/-- SHA-256 majority function. -/
def shaMaj (x y z : Nat) : Nat := (x &&& y) ^^^ (x &&& z) ^^^ (y &&& z)

/-- Extend a 16-word block schedule by `n` further words. -/
def extendW (ws : List Nat) : Nat → List Nat
  | 0 => ws
  | n + 1 =>
    let prev := extendW ws n
    let i := prev.length
    prev ++ [w32 (getW prev (i - 16) + smallSig0 (getW prev (i - 15)) +
                  getW prev (i - 7) + smallSig1 (getW prev (i - 2)))]

/-- One SHA-256 compression round applied to an 8-word state. -/
def shaRound (st : List Nat) (wk : Nat × Nat) : List Nat :=
  let a := getW st 0
  let t1 := w32 (getW st 7 + bigSig1 (getW st 4) + shaCh (getW st 4) (getW st 5) (getW st 6) +
                 wk.2 + wk.1)
  let t2 := w32 (bigSig0 a + shaMaj a (getW st 1) (getW st 2))
  [w32 (t1 + t2), a, getW st 1, getW st 2, w32 (getW st 3 + t1), getW st 4, getW st 5, getW st 6]

/-- SHA-256 compression of one 64-word schedule into the running hash. -/
def shaCompress (h ws : List Nat) : List Nat :=
  let st := (List.zip ws shaK).foldl shaRound h
  (List.zip h st).map (fun p => w32 (p.1 + p.2))

/-- Big-endian 32-bit word from 4 bytes. -/
def word32BE (bs : List Nat) : Nat := bs.foldl (fun a b => a * 256 + b) 0

/-- SHA-256 digest (32 bytes) of a byte sequence. -/
def sha256 (msg : List Nat) : List Nat :=
  let blocks := chunksOf 64 (sha256Pad msg)
  let hfin := blocks.foldl (fun h blk => shaCompress h (extendW ((chunksOf 4 blk).map word32BE) 48)) shaH0
  hfin.foldr (fun w acc => bytesBE 4 w ++ acc) []

/-- Lowercase hex digit. -/
def hexDigit (n : Nat) : Char := if n < 10 then Char.ofNat (48 + n) else Char.ofNat (87 + n)

/-- Two lowercase hex digits of a byte. -/
def byteHex (b : Nat) : List Char := [hexDigit (b / 16), hexDigit (b % 16)]

/-- Lowercase hex rendering of a byte sequence. -/
def hexOf (bs : List Nat) : List Char := bs.foldr (fun b acc => byteHex b ++ acc) []

/-- UTF-8 encoding of one character. -/
def charUtf8 (c : Char) : List Nat :=
  let n := c.toNat
  if n < 0x80 then [n]
  else if n < 0x800 then [0xC0 + n / 64, 0x80 + n % 64]
  else if n < 0x10000 then [0xE0 + n / 4096, 0x80 + n / 64 % 64, 0x80 + n % 64]
  else [0xF0 + n / 262144, 0x80 + n / 4096 % 64, 0x80 + n / 64 % 64, 0x80 + n % 64]

/-- UTF-8 encoding of a character sequence (`str.encode` in Python). -/
def utf8Encode (s : List Char) : List Nat := s.foldr (fun c acc => charUtf8 c ++ acc) []

/-- `SensitiveDataDetector.hash_value`: SHA-256 hex digest of the UTF-8 bytes. -/
def hash_value (v : List Char) : List Char := hexOf (sha256 (utf8Encode v))

/-! ## Detector engine (`SensitiveDataDetector` in `detectors.py`) -/

/-- The `Finding` dataclass of `detectors.py`. -/
structure Finding where
  finding_type : String
  value : List Char
  value_hash : List Char
  line_number : Nat
  column_start : Nat
  column_end : Nat
  context : List Char
  confidence : String
deriving DecidableEq, Repr

/-- `CONTEXT_WINDOW` class constant. -/
def CONTEXT_WINDOW : Nat := 50

/-- Python `str.strip()`: drop leading and trailing whitespace. -/
def pyStrip (l : List Char) : List Char :=
  (((l.dropWhile pySpace).reverse).dropWhile pySpace).reverse

/-- `SensitiveDataDetector.get_context`: up to 50 characters of context on
each side of the match, stripped, truncated to 200 characters plus an
ellipsis marker.  Nat subtraction realizes Python's `max(0, start - 50)`. -/
def get_context (text : List Char) (s e : Nat) : List Char :=
  let contextStart := s - CONTEXT_WINDOW
  let contextEnd := min text.length (e + CONTEXT_WINDOW)
  let context := pyStrip (sliceL text contextStart contextEnd)
  if context.length > 200 then context.take 200 ++ "...".data else context

/-- `re.sub(r'[-\s]', '', value)`. -/
def stripDashSpace (v : List Char) : List Char := v.filter (fun c => !sepDash c)

/-- `SensitiveDataDetector.luhn_check`. -/
def luhn_check (card : List Char) : Bool :=
  let digits := (card.filter pyDigit).map (fun c => c.toNat - 48)
  if digits.length < 13 || digits.length > 19 then false
  else
    let checksum := (digits.reverse.enum).foldl (fun acc p =>
      if p.1 % 2 = 1 then
        let d := p.2 * 2
        acc + (if d > 9 then d - 9 else d)
      else acc + p.2) 0
    checksum % 10 == 0

/-- The per-match loop body of a detector: emit a finding or skip (`continue`). -/
def detectLoop (f : Nat × Nat → Option Finding) : List (Nat × Nat) → List Finding
  | [] => []
  | m :: ms =>
    match f m with
    | some fd => fd :: detectLoop f ms
    | none => detectLoop f ms

/-- Loop body of `detect_ssn`: normalize, require 9 digits, reject the
excluded prefixes 000 / 666 / 9. -/
def ssnBody (text : List Char) (n : Nat) (m : Nat × Nat) : Option Finding :=
  let value := sliceL text m.1 m.2
  let normalized := stripDashSpace value
  if normalized.length == 9 && normalized.all pyDigit then
    if ("000".data).isPrefixOf normalized || ("666".data).isPrefixOf normalized ||
       ("9".data).isPrefixOf normalized then none
    else
      some { finding_type := "ssn", value := value, value_hash := hash_value normalized,
             line_number := n, column_start := m.1, column_end := m.2,
             context := get_context text m.1 m.2, confidence := "high" }
  else none

/-- `SensitiveDataDetector.detect_ssn`. -/
def detect_ssn (text : List Char) (n : Nat) : List Finding :=
  detectLoop (ssnBody text n) (finditer ssnPat text)

/-- Loop body of `detect_credit_card`: normalize and validate with Luhn.
The source assigns confidence `medium` on Luhn failure but then `continue`s,
so no finding is emitted on that path. -/
def ccBody (text : List Char) (n : Nat) (m : Nat × Nat) : Option Finding :=
  let value := sliceL text m.1 m.2
  let normalized := stripDashSpace value
  if luhn_check normalized then
    some { finding_type := "credit_card", value := value, value_hash := hash_value normalized,
           line_number := n, column_start := m.1, column_end := m.2,
           context := get_context text m.1 m.2, confidence := "high" }
  else none

/-- `SensitiveDataDetector.detect_credit_card`. -/
def detect_credit_card (text : List Char) (n : Nat) : List Finding :=
  detectLoop (ccBody text n) (finditer ccPat text)

/-- ASCII uppercase test (`str.isupper` on the base64-alphabet values). -/
def isUpperA (c : Char) : Bool := 'A' ≤ c && c ≤ 'Z'

/-- ASCII lowercase test (`str.islower` on the base64-alphabet values). -/
def isLowerA (c : Char) : Bool := 'a' ≤ c && c ≤ 'z'

/-- Loop body for AWS access keys: unconditional finding. -/
def awsAccessBody (text : List Char) (n : Nat) (m : Nat × Nat) : Option Finding :=
  let value := sliceL text m.1 m.2
  some { finding_type := "aws_access_key", value := value, value_hash := hash_value value,
         line_number := n, column_start := m.1, column_end := m.2,
         context := get_context text m.1 m.2, confidence := "high" }

/-- Loop body for AWS secret keys: require a mix of upper, lower and digits. -/
def awsSecretBody (text : List Char) (n : Nat) (m : Nat × Nat) : Option Finding :=
  let value := sliceL text m.1 m.2
  if value.any isUpperA && value.any isLowerA && value.any pyDigit then
    some { finding_type := "aws_secret_key", value := value, value_hash := hash_value value,
           line_number := n, column_start := m.1, column_end := m.2,
           context := get_context text m.1 m.2, confidence := "medium" }
  else none

/-- `SensitiveDataDetector.detect_aws_keys`. -/
def detect_aws_keys (text : List Char) (n : Nat) : List Finding :=
  detectLoop (awsAccessBody text n) (finditer awsAccessPat text) ++
  detectLoop (awsSecretBody text n) (finditer awsSecretPat text)

/-- Python `str.split(sep)` for a one-character separator. -/
def splitOnC (sep : Char) : List Char → List (List Char)
  | [] => [[]]
  | c :: cs =>
    match splitOnC sep cs with
    | [] => [[]]
    | h :: t => if c = sep then [] :: h :: t else (c :: h) :: t

/-- Python `str.lower()` on the Latin-1 range. -/
def pyLower (c : Char) : Char :=
  if 'A' ≤ c && c ≤ 'Z' then Char.ofNat (c.toNat + 32)
  else if 192 ≤ c.toNat && c.toNat ≤ 222 && c.toNat != 215 then Char.ofNat (c.toNat + 32)
  else c

/-- Loop body of `detect_email`: require an `@` and a dot in the part after
the first `@`; the hash is over the lower-cased value. -/
def emailBody (text : List Char) (n : Nat) (m : Nat × Nat) : Option Finding :=
  let value := sliceL text m.1 m.2
  if value.contains '@' && ((splitOnC '@' value).getD 1 []).contains '.' then
    some { finding_type := "email", value := value, value_hash := hash_value (value.map pyLower),
           line_number := n, column_start := m.1, column_end := m.2,
           context := get_context text m.1 m.2, confidence := "high" }
  else none

/-- `SensitiveDataDetector.detect_email`. -/
def detect_email (text : List Char) (n : Nat) : List Finding :=
  detectLoop (emailBody text n) (finditer emailPat text)

/-- `re.sub(r'[-.\s()]+', '', value)`. -/
def stripPhoneChars (v : List Char) : List Char :=
  v.filter (fun c => !(sepPhone c || c = '(' || c = ')'))

/-- Loop body of `detect_phone`: normalize, drop a leading country code 1,
require exactly 10 digits, reject the prefixes 000 and 555. -/
def phoneBody (text : List Char) (n : Nat) (m : Nat × Nat) : Option Finding :=
  let value := sliceL text m.1 m.2
  let norm0 := stripPhoneChars value
  let normalized := if ("1".data).isPrefixOf norm0 then norm0.tail else norm0
  if normalized.length == 10 && normalized.all pyDigit then
    if ("000".data).isPrefixOf normalized || ("555".data).isPrefixOf normalized then none
    else
      some { finding_type := "phone_us", value := value, value_hash := hash_value normalized,
             line_number := n, column_start := m.1, column_end := m.2,
             context := get_context text m.1 m.2, confidence := "high" }
  else none

/-- `SensitiveDataDetector.detect_phone`. -/
def detect_phone (text : List Char) (n : Nat) : List Finding :=
  detectLoop (phoneBody text n) (finditer phonePat text)

/-- `SensitiveDataDetector.scan_line`: run all detectors on one line. -/
def scan_line (line : List Char) (n : Nat) : List Finding :=
  detect_ssn line n ++ detect_credit_card line n ++ detect_aws_keys line n ++
  detect_email line n ++ detect_phone line n

/-! ## Streaming reader (`FileScanner` in `scanner.py`) -/

/-- Is a byte a UTF-8 continuation byte? -/
def isCont (b : Nat) : Bool := 0x80 ≤ b && b ≤ 0xBF

/-- Strict UTF-8 decoding, fuel-bounded so that it is structurally recursive
(each step consumes at least one byte, so `fuel = length` suffices). -/
def utf8DecodeAux : Nat → List Nat → Option (List Char)
  | _, [] => some []
  | 0, _ :: _ => none
  | fuel + 1, b :: bs =>
    if b < 0x80 then (utf8DecodeAux fuel bs).map (fun cs => Char.ofNat b :: cs)
    else if 0xC2 ≤ b && b ≤ 0xDF then
      match bs with
      | b1 :: rest =>
        if isCont b1 then
          (utf8DecodeAux fuel rest).map (fun cs => Char.ofNat ((b - 0xC0) * 64 + (b1 - 0x80)) :: cs)
        else none
      | _ => none
    else if 0xE0 ≤ b && b ≤ 0xEF then
      match bs with
      | b1 :: b2 :: rest =>
        let okB1 :=
          if b = 0xE0 then 0xA0 ≤ b1 && b1 ≤ 0xBF
          else if b = 0xED then 0x80 ≤ b1 && b1 ≤ 0x9F
          else isCont b1
        if okB1 && isCont b2 then
          (utf8DecodeAux fuel rest).map (fun cs =>
            Char.ofNat ((b - 0xE0) * 4096 + (b1 - 0x80) * 64 + (b2 - 0x80)) :: cs)
        else none
      | _ => none
    else if 0xF0 ≤ b && b ≤ 0xF4 then
      match bs with
      | b1 :: b2 :: b3 :: rest =>
        let okB1 :=
          if b = 0xF0 then 0x90 ≤ b1 && b1 ≤ 0xBF
          else if b = 0xF4 then 0x80 ≤ b1 && b1 ≤ 0x8F
          else isCont b1
        if okB1 && isCont b2 && isCont b3 then
          (utf8DecodeAux fuel rest).map (fun cs =>
            Char.ofNat ((b - 0xF0) * 262144 + (b1 - 0x80) * 4096 + (b2 - 0x80) * 64 + (b3 - 0x80)) :: cs)
        else none
      | _ => none
    else none

/-- Strict UTF-8 decoding (Python `bytes.decode('utf-8')`): rejects truncated
sequences, overlong encodings, surrogates and values above U+10FFFF. -/
def utf8Decode (bs : List Nat) : Option (List Char) := utf8DecodeAux bs.length bs

/-- Latin-1 decoding (`bytes.decode('latin-1')`): one char per byte, never fails. -/
def latin1Decode (bs : List Nat) : List Char := bs.map Char.ofNat

/-- The per-chunk decode of `scan_file_streaming`: UTF-8 first, Latin-1 on
failure (the further `continue` fallback is unreachable since Latin-1 accepts
every byte). -/
def decodeChunk (bs : List Nat) : List Char :=
  match utf8Decode bs with
  | some cs => cs
  | none => latin1Decode bs

/-- Python `str.split('\n')`: always non-empty, empty string gives `[[]]`. -/
def splitNl : List Char → List (List Char)
  | [] => [[]]
  | c :: cs =>
    match splitNl cs with
    | [] => [[]]
    | l :: ls => if c = '\n' then [] :: l :: ls else (c :: l) :: ls

/-- Scan a list of complete lines, threading the running line counter
(the inner `for line in lines[:-1]` loop). -/
def scanLinesFold (acc : Nat × List Finding) (ls : List (List Char)) : Nat × List Finding :=
  ls.foldl (fun acc line => (acc.1 + 1, acc.2 ++ scan_line line (acc.1 + 1))) acc

/-- The chunk loop of `scan_file_streaming`: decode each chunk, append to the
carry buffer, split on newline, scan the complete lines and keep the final
fragment; after the last chunk the non-empty carry is scanned as a last line. -/
def scanContent (chunks : List (List Nat)) : List Finding :=
  let st := chunks.foldl
    (fun (acc : Nat × List Char × List Finding) chunk =>
      let text := decodeChunk chunk
      let buffer := acc.2.1 ++ text
      let lines := splitNl buffer
      let res := scanLinesFold (acc.1, acc.2.2) (lines.dropLast)
      (res.1, lines.getLastD [], res.2))
    (0, [], [])
  if st.2.1 ≠ [] then st.2.2 ++ scan_line st.2.1 (st.1 + 1) else st.2.2

/-- Object-store requests issued by the scanner, in order. -/
inductive Request where
  | headObject : Request
  | rangeGet : Request
  | getObject : Request
deriving DecidableEq, Repr

/-- The extension allow-list of `FileScanner.is_text_file`. -/
def textExtensions : List String :=
  [".txt", ".log", ".csv", ".json", ".xml", ".html", ".htm",
   ".md", ".py", ".js", ".java", ".c", ".cpp", ".h", ".sh",
   ".yml", ".yaml", ".toml", ".ini", ".cfg", ".conf", ".sql"]

/-- `FileScanner.is_text_file` on an object with key `key` and content
`content`: extension allow-list first, otherwise sample the first 1 KiB,
reject on a NUL byte, then require the sample to decode as UTF-8.
Also reports whether the ranged sample request was issued. -/
def is_text_file (key : String) (content : List Nat) : Bool × Bool :=
  if textExtensions.any (fun ext => key.toLower.endsWith ext) then (true, false)
  else
    let sample := content.take 1024
    (!sample.contains 0 && (utf8Decode sample).isSome, true)

/-- `FileScanner.scan_file_streaming` over an object store modeled as the
object's byte content (its resolved size is the content length): returns the
findings, the error message (`none` means the `Completed` outcome) and the
object-store requests issued, in order. -/
def scan_file_streaming (maxFileSize chunkSize : Nat) (key : String) (content : List Nat) :
    List Finding × Option String × List Request :=
  let fileSize := content.length
  if fileSize > maxFileSize then
    ([], some ("File too large: " ++ toString fileSize ++ " bytes"), [Request.headObject])
  else
    let tf := is_text_file key content
    let reqs := [Request.headObject] ++ (if tf.2 then [Request.rangeGet] else [])
    if !tf.1 then ([], some "Non-text file, skipped", reqs)
    else (scanContent (chunksOf chunkSize content), none, reqs ++ [Request.getObject])

/-! ## Persistence layer (`database.py`) and worker state machine (`main.py`) -/

/-- The mutable columns of a `job_objects` row (a ScanUnit). -/
structure ScanUnitRow where
  status : String
  error_message : Option String
  attempts : Nat
  scanned_at : Option Nat
deriving DecidableEq, Repr

/-- `DatabaseManager.update_object_status`: set the status, set `scanned_at`
to the current time exactly for `completed` / `failed` and to NULL otherwise,
increment `attempts`, and overwrite `error_message` only when a non-empty
message is supplied (Python truthiness: an empty string is not stored). -/
def update_object_status (u : ScanUnitRow) (now : Nat) (status : String)
    (errorMessage : Option String) : ScanUnitRow :=
  { u with
    status := status
    scanned_at := if status = "completed" ∨ status = "failed" then some now else none
    attempts := u.attempts + 1
    error_message :=
      match errorMessage with
      | some m => if m = "" then u.error_message else some m
      | none => u.error_message }

/-- `DatabaseManager.mark_object_scanning`. -/
def mark_object_scanning (u : ScanUnitRow) (now : Nat) : ScanUnitRow :=
  update_object_status u now "scanning" none

/-- `DatabaseManager.mark_object_completed`. -/
def mark_object_completed (u : ScanUnitRow) (now : Nat) : ScanUnitRow :=
  update_object_status u now "completed" none

/-- `DatabaseManager.mark_object_failed`. -/
def mark_object_failed (u : ScanUnitRow) (now : Nat) (msg : String) : ScanUnitRow :=
  update_object_status u now "failed" (some msg)

/-- One row of the `findings` table (the columns written by the worker). -/
structure FindingRow where
  object_id : Nat
  job_id : Nat
  finding_type : String
  value_hash : List Char
  line_number : Nat
  column_start : Nat
  column_end : Nat
  context : List Char
  confidence : String
deriving DecidableEq, Repr

/-- The conflict key of the `findings` uniqueness constraint. -/
def rowKey (r : FindingRow) : Nat × String × Nat × Nat × List Char :=
  (r.object_id, r.finding_type, r.line_number, r.column_start, r.value_hash)

/-- Insert one row, ignoring it when a row with the same conflict key exists
(PostgreSQL `ON CONFLICT DO NOTHING`; earlier rows of the same statement are
visible to later ones). -/
def insertOne (tbl : List FindingRow) (r : FindingRow) : List FindingRow :=
  if rowKey r ∈ tbl.map rowKey then tbl else tbl ++ [r]

/-- `DatabaseManager.bulk_insert_findings`. -/
def bulk_insert_findings (tbl : List FindingRow) (rows : List FindingRow) : List FindingRow :=
  rows.foldl insertOne tbl

/-- The finding-to-row conversion of `ScannerWorker.process_message`. -/
def rowOf (objectId jobId : Nat) (f : Finding) : FindingRow :=
  { object_id := objectId, job_id := jobId, finding_type := f.finding_type,
    value_hash := f.value_hash, line_number := f.line_number,
    column_start := f.column_start, column_end := f.column_end,
    context := f.context, confidence := f.confidence }

/-- Database state touched by one work item: its ScanUnit row and the
findings table. -/
structure DbState where
  unit : ScanUnitRow
  findings : List FindingRow
deriving DecidableEq, Repr

/-- `ScannerWorker.process_message` after the ScanUnit has been resolved:
mark the unit scanning (first session, committed), scan, then in a second
session either record the failure or insert the findings and mark completed;
acknowledge (delete) the message only when that second session commits.
`phase2Ok = false` models an unexpected exception inside the second session:
the session rolls back, the handler swallows the exception and does not
acknowledge, so the committed state is exactly the post-`scanning` state.
Returns the resulting database state and whether the message was acknowledged. -/
def process_message (db : DbState) (scanResult : List Finding × Option String)
    (phase2Ok : Bool) (now1 now2 objectId jobId : Nat) : DbState × Bool :=
  let db1 : DbState := { db with unit := mark_object_scanning db.unit now1 }
  if !phase2Ok then (db1, false)
  else
    match scanResult.2 with
    | some msg => ({ db1 with unit := mark_object_failed db1.unit now2 msg }, true)
    | none =>
      let rows := scanResult.1.map (rowOf objectId jobId)
      ({ unit := mark_object_completed db1.unit now2,
         findings := bulk_insert_findings db1.findings rows }, true)

/-! ## Auxiliary definitions for the specification statements -/

/-- The ssn validation predicate as specified: exactly 9 digits after
normalization, and none of the excluded prefixes 000 / 666 / 9. -/
def ssnValid (nv : List Char) : Bool :=
  (nv.length == 9 && nv.all pyDigit) &&
  !(("000".data).isPrefixOf nv || ("666".data).isPrefixOf nv || ("9".data).isPrefixOf nv)

/-- Location summary of a finding (type, line, column span). -/
def findingSummary (fd : Finding) : String × Nat × Nat × Nat :=
  (fd.finding_type, fd.line_number, fd.column_start, fd.column_end)

/-- Does `needle` occur as a contiguous subsequence of the second list? -/
def containsSeq (needle : List Char) : List Char → Bool
  | [] => needle.isEmpty
  | c :: cs => needle.isPrefixOf (c :: cs) || containsSeq needle cs

/-- UTF-8 bytes of the line containing a two-byte character before an SSN. -/
def c2bytes : List Nat := [195, 169, 32, 49, 50, 51, 45, 52, 53, 45, 54, 55, 56, 57]

/-- A line with a 157-character email match surrounded by 100 filler
characters on each side. -/
def c9line : List Char :=
  List.replicate 100 '#' ++ List.replicate 150 'a' ++ "@ex.com".data ++ List.replicate 100 '#'

/-- The email match inside `c9line`. -/
def c9match : List Char := List.replicate 150 'a' ++ "@ex.com".data

/-- A fresh ScanUnit row, as created by the job orchestration layer. -/
def unit0 : ScanUnitRow :=
  { status := "pending", error_message := none, attempts := 0, scanned_at := none }

/-- Initial database state for one work item. -/
def db0 : DbState := { unit := unit0, findings := [] }

/-- A concrete finding row. -/
def row0 : FindingRow :=
  { object_id := 1, job_id := 1, finding_type := "ssn",
    value_hash := hash_value "123456789".data, line_number := 1,
    column_start := 5, column_end := 16, context := "SSN: 123-45-6789".data,
    confidence := "high" }

/-! ## Helper lemmas -/

/-- The per-match loop emits exactly the matches the body accepts, and the
emitted findings carry the match's column span. -/
theorem detectLoop_map_cols (f : Nat × Nat → Option Finding) (p : Nat × Nat → Bool)
    (h1 : ∀ m, (f m).isSome = p m)
    (h2 : ∀ m fd, f m = some fd → (fd.column_start, fd.column_end) = m) :
    ∀ ms : List (Nat × Nat),
      (detectLoop f ms).map (fun fd => (fd.column_start, fd.column_end)) = ms.filter p := by
  intro ms
  induction ms with
  | nil => rfl
  | cons m ms ih =>
    simp only [detectLoop, List.filter_cons]
    cases hf : f m with
    | none =>
      have hp : p m = false := by rw [← h1 m, hf]; rfl
      simp [hp, ih]
    | some fd =>
      have hp : p m = true := by rw [← h1 m, hf]; rfl
      simp [hp, ih, h2 m fd hf]

/-- Every finding emitted by the loop satisfies any property the body enforces. -/
theorem detectLoop_all (f : Nat × Nat → Option Finding) (q : Finding → Bool)
    (h : ∀ m fd, f m = some fd → q fd = true) :
    ∀ ms, (detectLoop f ms).all q = true := by
  intro ms
  induction ms with
  | nil => rfl
  | cons m ms ih =>
    simp only [detectLoop]
    cases hf : f m with
    | none => exact ih
    | some fd => simp [List.all_cons, h m fd hf, ih]

/-- The ssn loop body accepts a match exactly when `ssnValid` holds of the
normalized value. -/
theorem ssnBody_isSome (text : List Char) (n : Nat) (m : Nat × Nat) :
    (ssnBody text n m).isSome = ssnValid (stripDashSpace (sliceL text m.1 m.2)) := by
  simp only [ssnBody, ssnValid]
  cases h9 : ((stripDashSpace (sliceL text m.1 m.2)).length == 9 &&
      (stripDashSpace (sliceL text m.1 m.2)).all pyDigit) with
  | false => simp [h9]
  | true =>
    cases hp : (("000".data).isPrefixOf (stripDashSpace (sliceL text m.1 m.2)) ||
        ("666".data).isPrefixOf (stripDashSpace (sliceL text m.1 m.2)) ||
        ("9".data).isPrefixOf (stripDashSpace (sliceL text m.1 m.2))) with
    | false => simp [h9, hp]
    | true => simp [h9, hp]

/-- The ssn loop body records the match's column span. -/
theorem ssnBody_cols (text : List Char) (n : Nat) (m : Nat × Nat) (fd : Finding)
    (h : ssnBody text n m = some fd) : (fd.column_start, fd.column_end) = m := by
  simp only [ssnBody] at h
  split_ifs at h
  cases h
  rfl

/-- The credit-card loop body accepts a match exactly when the Luhn check
passes on the normalized value. -/
theorem ccBody_isSome (text : List Char) (n : Nat) (m : Nat × Nat) :
    (ccBody text n m).isSome = luhn_check (stripDashSpace (sliceL text m.1 m.2)) := by
  simp only [ccBody]
  cases hl : luhn_check (stripDashSpace (sliceL text m.1 m.2)) with
  | false => simp [hl]
  | true => simp [hl]

/-- The credit-card loop body records the match's column span. -/
theorem ccBody_cols (text : List Char) (n : Nat) (m : Nat × Nat) (fd : Finding)
    (h : ccBody text n m = some fd) : (fd.column_start, fd.column_end) = m := by
  simp only [ccBody] at h
  split_ifs at h
  cases h
  rfl

/-! ## Claim theorems -/

/-- C4: every 9-digit candidate matched by the ssn pattern is rejected exactly
when the normalized digits start with 000, 666 or 9, and accepted otherwise;
the formats 123-45-6789, 123 45 6789 and 123456789 normalize to the same 9
digits and produce identical value hashes. -/
theorem ssn_detector_spec :
    (∀ text n, (detect_ssn text n).map (fun fd => (fd.column_start, fd.column_end)) =
      (finditer ssnPat text).filter (fun m => ssnValid (stripDashSpace (sliceL text m.1 m.2)))) ∧
    (detect_ssn "123-45-6789".data 1).map (fun fd => fd.value_hash) =
      [hash_value "123456789".data] ∧
    (detect_ssn "123 45 6789".data 1).map (fun fd => fd.value_hash) =
      [hash_value "123456789".data] ∧
    (detect_ssn "123456789".data 1).map (fun fd => fd.value_hash) =
      [hash_value "123456789".data] := by
  refine ⟨?_, by decide, by decide, by decide⟩
  intro text n
  exact detectLoop_map_cols _ _ (ssnBody_isSome text n) (ssnBody_cols text n) _

/-- C1 counterexample: the claimed-accepted vector 4532111111111111 has Luhn
checksum 39 and yields no finding; the claimed-rejected vector
0000000000000000 has Luhn checksum 0 and yields a high-confidence finding;
the accepted 15-digit vector 374245455400126 yields no finding when written
with hyphen separators, because the pattern's separated alternative requires
four groups of four digits. -/
theorem cc_claim_counterexample :
    detect_credit_card "4532111111111111".data 1 = [] ∧
    (detect_credit_card "0000000000000000".data 1).map
      (fun fd => (fd.confidence, fd.column_start, fd.column_end)) = [("high", 0, 16)] ∧
    detect_credit_card "3742-4545-5400-126".data 1 = [] ∧
    (detect_credit_card "374245455400126".data 1).length = 1 := by
  exact ⟨by decide, by decide, by decide, by decide⟩

/-- C1 amended: for every line, the credit_card detector emits a finding for a
matched digit sequence iff the normalized sequence passes the Luhn checksum,
always with high confidence (no medium-confidence finding is emitted);
5425233430109903, 374245455400126, 6011111111111117 are accepted, and
1234567890123456 and 1111111111111111 rejected; 0000000000000000 is accepted
(its Luhn checksum is 0) and 4532111111111111 rejected (checksum 39);
separator-insensitivity holds for the accepted 16-digit vectors, while the
15-digit vector is matched only without separators. -/
theorem cc_detector_spec :
    (∀ text n, (detect_credit_card text n).map (fun fd => (fd.column_start, fd.column_end)) =
      (finditer ccPat text).filter (fun m => luhn_check (stripDashSpace (sliceL text m.1 m.2)))) ∧
    (∀ text n, (detect_credit_card text n).all (fun fd => fd.confidence == "high") = true) ∧
    (["5425233430109903", "374245455400126", "6011111111111117", "0000000000000000",
      "5425-2334-3010-9903", "5425 2334 3010 9903",
      "6011-1111-1111-1117", "6011 1111 1111 1117"].all
        (fun s => (detect_credit_card s.data 1).length == 1)) = true ∧
    (["4532111111111111", "4532-1111-1111-1111", "4532 1111 1111 1111",
      "1234567890123456", "1111111111111111",
      "3742-4545-5400-126", "3742 4545 5400 126"].all
        (fun s => (detect_credit_card s.data 1).isEmpty)) = true := by
  refine ⟨?_, ?_, by decide, by decide⟩
  · intro text n
    exact detectLoop_map_cols _ _ (ccBody_isSome text n) (ccBody_cols text n) _
  · intro text n
    refine detectLoop_all _ _ ?_ _
    intro m fd h
    simp only [ccBody] at h
    split_ifs at h
    cases h
    rfl

/-- C3: the phone_us detector rejects candidates whose normalized digits start
with 000 or 555 (the lines (555) 123-4567 and 000-000-0000 yield no finding),
and 2025551234, (202) 555-1234 and +1-202-555-1234 each yield one phone_us
finding hashed over the same normalized digits 2025551234. -/
theorem phone_detector_spec :
    detect_phone "(555) 123-4567".data 1 = [] ∧
    detect_phone "000-000-0000".data 1 = [] ∧
    (detect_phone "2025551234".data 1).map (fun fd => (fd.finding_type, fd.value_hash)) =
      [("phone_us", hash_value "2025551234".data)] ∧
    (detect_phone "(202) 555-1234".data 1).map (fun fd => (fd.finding_type, fd.value_hash)) =
      [("phone_us", hash_value "2025551234".data)] ∧
    (detect_phone "+1-202-555-1234".data 1).map (fun fd => (fd.finding_type, fd.value_hash)) =
      [("phone_us", hash_value "2025551234".data)] := by
  exact ⟨by decide, by decide, by decide, by decide, by decide⟩

/-- C2: the streaming scan is not chunking-invariant.  For the valid-UTF-8
content `é 123-45-6789` (bytes `c2bytes`), scanning as one chunk yields an
ssn finding at column 2, while splitting at byte offset 1 (inside the
two-byte character) makes both chunks fail UTF-8 decoding, fall back to
Latin-1 and shift the finding to column 3 on a corrupted line. -/
theorem streaming_split_divergence :
    (scanContent [c2bytes]).map findingSummary = [("ssn", 1, 2, 13)] ∧
    (scanContent [c2bytes.take 1, c2bytes.drop 1]).map findingSummary = [("ssn", 1, 3, 14)] ∧
    scanContent [c2bytes] ≠ scanContent [c2bytes.take 1, c2bytes.drop 1] := by
  exact ⟨by decide, by decide, by decide⟩

/-- Splitting an empty byte list produces no chunks. -/
theorem chunksOf_nil (n : Nat) : chunksOf n ([] : List Nat) = [] := by
  unfold chunksOf
  split_ifs <;> rfl

/-- A zero-byte object is classified as text on every path. -/
theorem is_text_file_nil (key : String) : (is_text_file key []).1 = true := by
  unfold is_text_file
  split_ifs <;> rfl

/-- C5: a zero-byte input yields the Completed outcome with no findings, and
an input whose resolved size exceeds the configured maximum yields the
Failed too-large outcome with only the metadata request issued — no content
chunk and no ranged sample are ever requested. -/
theorem scan_gating_spec :
    (∀ maxFileSize chunkSize key (content : List Nat), content = [] →
       (scan_file_streaming maxFileSize chunkSize key content).1 = [] ∧
       (scan_file_streaming maxFileSize chunkSize key content).2.1 = none) ∧
    (∀ maxFileSize chunkSize key (content : List Nat), content.length > maxFileSize →
       (scan_file_streaming maxFileSize chunkSize key content).1 = [] ∧
       (scan_file_streaming maxFileSize chunkSize key content).2.1 =
         some ("File too large: " ++ toString content.length ++ " bytes") ∧
       (scan_file_streaming maxFileSize chunkSize key content).2.2 = [Request.headObject] ∧
       Request.getObject ∉ (scan_file_streaming maxFileSize chunkSize key content).2.2 ∧
       Request.rangeGet ∉ (scan_file_streaming maxFileSize chunkSize key content).2.2) := by
  constructor
  · rintro maxFileSize chunkSize key content rfl
    simp only [scan_file_streaming, List.length_nil]
    rw [if_neg (by omega), is_text_file_nil key, chunksOf_nil chunkSize]
    simp [scanContent]
  · intro maxFileSize chunkSize key content h
    simp only [scan_file_streaming]
    rw [if_pos h]
    simp

/-- C5 witness: the gating theorem applied to a zero-byte object and to a
3-byte object with a 2-byte size limit. -/
theorem scan_gating_witness :
    ((scan_file_streaming 500 10 "a.txt" []).1 = [] ∧
     (scan_file_streaming 500 10 "a.txt" []).2.1 = none) ∧
    ((scan_file_streaming 2 10 "a.txt" [49, 50, 51]).1 = [] ∧
     (scan_file_streaming 2 10 "a.txt" [49, 50, 51]).2.1 =
       some ("File too large: " ++ toString ([49, 50, 51] : List Nat).length ++ " bytes") ∧
     (scan_file_streaming 2 10 "a.txt" [49, 50, 51]).2.2 = [Request.headObject] ∧
     Request.getObject ∉ (scan_file_streaming 2 10 "a.txt" [49, 50, 51]).2.2 ∧
     Request.rangeGet ∉ (scan_file_streaming 2 10 "a.txt" [49, 50, 51]).2.2) :=
  ⟨scan_gating_spec.1 500 10 "a.txt" [] rfl,
   scan_gating_spec.2 2 10 "a.txt" [49, 50, 51] (by decide)⟩

/-- C6: when the scan of a work item ends with an error outcome (the Failed
and Skipped cases both surface as an error message), the state machine moves
the ScanUnit to status failed with the reason stored as error_message,
increments attempts (by one in the failed transition, on top of the scanning
transition's increment), records no findings, and acknowledges the message. -/
theorem failed_scan_disposition (db : DbState) (found : List Finding) (msg : String)
    (h : msg ≠ "") (now1 now2 objectId jobId : Nat) :
    (process_message db (found, some msg) true now1 now2 objectId jobId).1.unit.status = "failed" ∧
    (process_message db (found, some msg) true now1 now2 objectId jobId).1.unit.error_message =
      some msg ∧
    (process_message db (found, some msg) true now1 now2 objectId jobId).1.unit.attempts =
      db.unit.attempts + 2 ∧
    (process_message db (found, some msg) true now1 now2 objectId jobId).1.findings =
      db.findings ∧
    (process_message db (found, some msg) true now1 now2 objectId jobId).2 = true := by
  simp [process_message, mark_object_scanning, mark_object_failed, update_object_status, h]

/-- C6 witness: the disposition theorem at a fresh unit and the non-text skip
reason. -/
theorem failed_scan_disposition_witness :
    (process_message db0 ([], some "Non-text file, skipped") true 5 6 1 2).1.unit.status =
      "failed" ∧
    (process_message db0 ([], some "Non-text file, skipped") true 5 6 1 2).1.unit.error_message =
      some "Non-text file, skipped" ∧
    (process_message db0 ([], some "Non-text file, skipped") true 5 6 1 2).1.unit.attempts =
      db0.unit.attempts + 2 ∧
    (process_message db0 ([], some "Non-text file, skipped") true 5 6 1 2).1.findings =
      db0.findings ∧
    (process_message db0 ([], some "Non-text file, skipped") true 5 6 1 2).2 = true :=
  failed_scan_disposition db0 [] "Non-text file, skipped" (by decide) 5 6 1 2

/-- C7: when an unexpected exception interrupts processing after the unit was
moved to scanning, the message is not acknowledged and the stored status
remains scanning; the findings table is untouched by that attempt. -/
theorem unexpected_exception_disposition (db : DbState)
    (scanResult : List Finding × Option String) (now1 now2 objectId jobId : Nat) :
    (process_message db scanResult false now1 now2 objectId jobId).2 = false ∧
    (process_message db scanResult false now1 now2 objectId jobId).1.unit.status = "scanning" ∧
    (process_message db scanResult false now1 now2 objectId jobId).1.findings = db.findings := by
  simp [process_message, mark_object_scanning, update_object_status]

/-- Inserting a row puts its conflict key into the table keys. -/
theorem insertOne_mem_keys (tbl : List FindingRow) (r : FindingRow) :
    rowKey r ∈ (insertOne tbl r).map rowKey := by
  unfold insertOne
  split_ifs with h
  · exact h
  · simp

/-- Inserting preserves existing conflict keys. -/
theorem insertOne_keys_mono (tbl : List FindingRow) (r : FindingRow)
    (k : Nat × String × Nat × Nat × List Char)
    (h : k ∈ tbl.map rowKey) : k ∈ (insertOne tbl r).map rowKey := by
  unfold insertOne
  split_ifs with h2
  · exact h
  · simp only [List.map_append, List.mem_append]
    exact Or.inl h

/-- Bulk insert preserves existing conflict keys. -/
theorem bulk_keys_mono : ∀ (rows tbl : List FindingRow) (k : Nat × String × Nat × Nat × List Char),
    k ∈ tbl.map rowKey → k ∈ (bulk_insert_findings tbl rows).map rowKey := by
  intro rows
  induction rows with
  | nil => intro tbl k h; exact h
  | cons r rows ih =>
    intro tbl k h
    exact ih (insertOne tbl r) k (insertOne_keys_mono tbl r k h)

/-- After a bulk insert every inserted row's conflict key is present. -/
theorem bulk_mem_keys : ∀ (rows tbl : List FindingRow) (r : FindingRow), r ∈ rows →
    rowKey r ∈ (bulk_insert_findings tbl rows).map rowKey := by
  intro rows
  induction rows with
  | nil => intro tbl r h; cases h
  | cons r0 rows ih =>
    intro tbl r h
    rcases List.mem_cons.mp h with h | h
    · subst h
      exact bulk_keys_mono rows (insertOne tbl r) (rowKey r) (insertOne_mem_keys tbl r)
    · exact ih _ r h

/-- Bulk insert of rows whose conflict keys are all present is a no-op. -/
theorem bulk_noop : ∀ (rows tbl : List FindingRow),
    (∀ r ∈ rows, rowKey r ∈ tbl.map rowKey) → bulk_insert_findings tbl rows = tbl := by
  intro rows
  induction rows with
  | nil => intro tbl _; rfl
  | cons r rows ih =>
    intro tbl h
    have h1 : rowKey r ∈ tbl.map rowKey := h r (List.mem_cons_self r rows)
    have h2 : insertOne tbl r = tbl := by unfold insertOne; rw [if_pos h1]
    show bulk_insert_findings (insertOne tbl r) rows = tbl
    rw [h2]
    exact ih tbl (fun x hx => h x (List.mem_cons_of_mem r hx))

/-- Conflict-ignoring insert preserves key uniqueness. -/
theorem insertOne_pairwise (tbl : List FindingRow) (r : FindingRow)
    (h : tbl.Pairwise (fun a b => rowKey a ≠ rowKey b)) :
    (insertOne tbl r).Pairwise (fun a b => rowKey a ≠ rowKey b) := by
  unfold insertOne
  split_ifs with hk
  · exact h
  · rw [List.pairwise_append]
    refine ⟨h, List.pairwise_singleton _ _, ?_⟩
    intro a ha b hb hab
    rw [List.mem_singleton] at hb
    subst hb
    exact hk (hab ▸ List.mem_map_of_mem rowKey ha)

/-- Bulk insert preserves key uniqueness. -/
theorem bulk_pairwise : ∀ (rows tbl : List FindingRow),
    tbl.Pairwise (fun a b => rowKey a ≠ rowKey b) →
    (bulk_insert_findings tbl rows).Pairwise (fun a b => rowKey a ≠ rowKey b) := by
  intro rows
  induction rows with
  | nil => intro tbl h; exact h
  | cons r rows ih =>
    intro tbl h
    exact ih _ (insertOne_pairwise tbl r h)

/-- C8: persisting the identical findings list twice stores exactly the same
rows (hence the same row count) as persisting it once, and the table stays
unique on the conflict key (ScanUnit id, finding_type, line_number,
column_start, value_hash): conflicting inserts are ignored. -/
theorem bulk_insert_idempotent :
    (∀ tbl rows, bulk_insert_findings (bulk_insert_findings tbl rows) rows =
       bulk_insert_findings tbl rows) ∧
    (∀ tbl rows, (bulk_insert_findings (bulk_insert_findings tbl rows) rows).length =
       (bulk_insert_findings tbl rows).length) ∧
    (∀ tbl rows, tbl.Pairwise (fun a b => rowKey a ≠ rowKey b) →
       (bulk_insert_findings tbl rows).Pairwise (fun a b => rowKey a ≠ rowKey b)) := by
  have key : ∀ tbl rows, bulk_insert_findings (bulk_insert_findings tbl rows) rows =
      bulk_insert_findings tbl rows :=
    fun tbl rows => bulk_noop rows _ (fun r hr => bulk_mem_keys rows tbl r hr)
  exact ⟨key, fun tbl rows => by rw [key], fun tbl rows h => bulk_pairwise rows tbl h⟩

/-- C8 witness: the idempotence theorem's uniqueness part at an empty table
and a duplicated concrete row. -/
theorem bulk_insert_idempotent_witness :
    (bulk_insert_findings [] [row0, row0]).Pairwise (fun a b => rowKey a ≠ rowKey b) :=
  bulk_insert_idempotent.2.2 [] [row0, row0] List.Pairwise.nil

/-- C10: every status update increments attempts by one, whatever the target
status; scanned_at is set to a timestamp exactly for completed / failed and
to NULL otherwise (the scanning transition clears it); one successful
end-to-end processing therefore raises attempts by two. -/
theorem status_update_spec :
    (∀ u now status err, (update_object_status u now status err).attempts = u.attempts + 1) ∧
    (∀ u now status err, (update_object_status u now status err).scanned_at =
       (if status = "completed" ∨ status = "failed" then some now else none)) ∧
    (∀ u now, (mark_object_scanning u now).scanned_at = none ∧
       (mark_object_scanning u now).attempts = u.attempts + 1) ∧
    (∀ db (found : List Finding) now1 now2 objectId jobId,
       (process_message db (found, none) true now1 now2 objectId jobId).1.unit.attempts =
         db.unit.attempts + 2) := by
  refine ⟨fun u now status err => rfl, fun u now status err => rfl, ?_, ?_⟩
  · intro u now
    constructor
    · show (if ("scanning" = "completed" ∨ "scanning" = "failed") then some now else none) = none
      rw [if_neg (by decide)]
    · rfl
  · intro db found now1 now2 objectId jobId
    simp [process_message, mark_object_scanning, mark_object_completed, update_object_status]

/-- C9 counterexample: a 157-character email match surrounded by 100 filler
characters on each side yields a context that truncates away the tail of
the match, so the context does not contain the full matched text. -/
theorem context_claim_counterexample :
    (detect_email c9line 1).map (fun fd => (fd.column_start, fd.column_end)) = [(100, 257)] ∧
    (detect_email c9line 1).map (fun fd => fd.value) = [c9match] ∧
    (detect_email c9line 1).all (fun fd => !containsSeq c9match fd.context) = true := by
  exact ⟨by decide, by decide, by decide⟩

/-- A list whose head is not taken by the predicate survives `dropWhile`. -/
theorem dropWhile_head_false (p : Char → Bool) (l : List Char)
    (h : ∀ a, l.head? = some a → p a = false) : l.dropWhile p = l := by
  cases l with
  | nil => rfl
  | cons a l =>
    rw [List.dropWhile_cons, h a rfl]
    simp

/-- Stripping does nothing when neither end of the list is whitespace. -/
theorem pyStrip_eq_self (l : List Char)
    (h1 : ∀ a, l.head? = some a → pySpace a = false)
    (h2 : ∀ a, l.getLast? = some a → pySpace a = false) : pyStrip l = l := by
  unfold pyStrip
  rw [dropWhile_head_false pySpace l h1]
  rw [dropWhile_head_false pySpace l.reverse
    (fun a ha => h2 a (by rwa [List.head?_reverse] at ha))]
  exact List.reverse_reverse l

/-- A list is a prefix of itself extended on the right. -/
theorem isPrefixOf_append_self (m suf : List Char) : m.isPrefixOf (m ++ suf) = true := by
  rw [ List.isPrefixOf_iff_prefix]
  exact List.prefix_append m suf

/-- `containsSeq` finds a block that occurs contiguously. -/
theorem containsSeq_of_parts : ∀ (pre m suf : List Char),
    containsSeq m (pre ++ m ++ suf) = true := by
  intro pre
  induction pre with
  | nil =>
    intro m suf
    rw [List.nil_append]
    cases m with
    | nil => cases suf <;> rfl
    | cons c cs =>
      rw [List.cons_append]
      simp only [containsSeq]
      rw [show c :: (cs ++ suf) = (c :: cs) ++ suf from rfl, isPrefixOf_append_self]
      rfl
  | cons p ps ih =>
    intro m suf
    rw [show (p :: ps) ++ m ++ suf = p :: (ps ++ m ++ suf) by simp]
    simp only [containsSeq]
    rw [ih m suf, Bool.or_true]

/-- The context slice of a match surrounded by 100 filler characters is the
match with 50 filler characters on each side. -/
theorem context_slice (m : List Char) (f : Char) :
    sliceL (List.replicate 100 f ++ m ++ List.replicate 100 f) 50 (150 + m.length) =
      List.replicate 50 f ++ m ++ List.replicate 50 f := by
  unfold sliceL
  have htext : List.replicate 100 f ++ m ++ List.replicate 100 f =
      List.replicate 50 f ++
        ((List.replicate 50 f ++ m ++ List.replicate 50 f) ++ List.replicate 50 f) := by
    rw [show (100 : Nat) = 50 + 50 from rfl, List.replicate_add]
    simp [List.append_assoc]
  rw [htext]
  rw [show (150 + m.length - 50 : Nat) = 100 + m.length by omega]
  rw [List.drop_left' (by simp)]
  rw [List.take_left' (by simp; omega)]

/-- Stripping the context slice does nothing when the filler character is not
whitespace. -/
theorem strip_context_slice (m : List Char) (f : Char) (hf : pySpace f = false) :
    pyStrip (List.replicate 50 f ++ m ++ List.replicate 50 f) =
      List.replicate 50 f ++ m ++ List.replicate 50 f := by
  apply pyStrip_eq_self
  · intro a ha
    have hh : (List.replicate 50 f ++ m ++ List.replicate 50 f).head? = some f := by
      rw [show (50 : Nat) = 49 + 1 from rfl, List.replicate_succ]
      rfl
    rw [hh] at ha
    cases ha
    exact hf
  · intro a ha
    have hR : (List.replicate 50 f).getLast? = some f := by
      rw [show (50 : Nat) = 49 + 1 from rfl, List.replicate_succ', List.getLast?_concat]
    have hg : (List.replicate 50 f ++ m ++ List.replicate 50 f).getLast? = some f := by
      rw [List.append_assoc, List.getLast?_append, List.getLast?_append, hR]
      rfl
    rw [hg] at ha
    cases ha
    exact hf

/-- C9 amended: every extracted context is at most 203 characters long
(context is built from up to 50 characters on each side of the match span,
whitespace-trimmed, hard-truncated at 200 characters plus an ellipsis
marker), and a match of at most 150 characters surrounded by 100
non-whitespace filler characters on each side is contained in full in its
context; a longer match can lose its tail to the truncation. -/
theorem context_spec :
    (∀ text s e, (get_context text s e).length ≤ 203) ∧
    (∀ (m : List Char) (f : Char), pySpace f = false → m.length ≤ 150 →
       containsSeq m (get_context (List.replicate 100 f ++ m ++ List.replicate 100 f)
         100 (100 + m.length)) = true) := by
  constructor
  · intro text s e
    simp only [get_context]
    split_ifs with h
    · simp only [List.length_append, List.length_take, List.length_cons, List.length_nil]
      omega
    · omega
  · intro m f hf hlen
    have hml : (List.replicate 100 f ++ m ++ List.replicate 100 f).length = 200 + m.length := by
      simp only [List.length_append, List.length_replicate]
      omega
    simp only [get_context, CONTEXT_WINDOW]
    rw [hml]
    rw [show (100 - 50 : Nat) = 50 from rfl]
    rw [show min (200 + m.length) (100 + m.length + 50) = 150 + m.length by omega]
    rw [context_slice m f, strip_context_slice m f hf]
    split_ifs with h
    · rw [List.take_append_eq_append_take]
      rw [List.take_of_length_le (by simp only [List.length_append, List.length_replicate]; omega)]
      rw [List.append_assoc]
      exact containsSeq_of_parts _ m _
    · exact containsSeq_of_parts _ m _

/-- C9 witness: the amended context theorem at an 11-character SSN match with
filler character x. -/
theorem context_spec_witness :
    pySpace 'x' = false ∧ ("123-45-6789".data).length ≤ 150 ∧
    containsSeq "123-45-6789".data
      (get_context (List.replicate 100 'x' ++ "123-45-6789".data ++ List.replicate 100 'x')
        100 (100 + ("123-45-6789".data).length)) = true :=
  ⟨by decide, by decide, context_spec.2 "123-45-6789".data 'x' (by decide) (by decide)⟩
